import Mathlib

/-!
# PWM duty-cycle driver (ble_car_project_002/arm/ble_pwm.c)

A shallow embedding of the driver: the file-scope cell pwm, the memory-mapped
registers the driver writes, and the functions timer2_init, gpiote_init,
ppi_init, TIMER2_IRQHandler, pwm_set and pwm_init as state transformers.

Machine integers are natural numbers; a value entering a uint8_t is reduced
modulo 256 and a value entering a 32-bit register or uint32_t modulo 2^32.
A register write is modelled as the C assignment it is (the cell then holds the
written value).  Calls into the vendor SDK (pin configuration, interrupt
controller) are not part of the repository; they are recorded, in order, in a
call log.
-/

namespace BlePwm

/-! ## Constants of ble_pwm.c -/

/-- TIMER_PRESCALER, line 15. -/
def TIMER_PRESCALER : Nat := 2
/-- LED_INTENSITY_HIGH, line 16. -/
def LED_INTENSITY_HIGH : Nat := 126
/-- LED_INTENSITY_LOW, line 17. -/
def LED_INTENSITY_LOW : Nat := 10
/-- LED_OFF, line 18. -/
def LED_OFF : Nat := 1
/-- LED_INTENSITY_HALF, line 19. -/
def LED_INTENSITY_HALF : Nat := 63

/-- Truncation to uint8_t. -/
def u8 (n : Nat) : Nat := n % 2 ^ 8
/-- Truncation to uint32_t. -/
def u32 (n : Nat) : Nat := n % 2 ^ 32

/-- Constants and addresses that the source takes from the vendor headers
(nrf51_bitfields.h, nrf_gpiote.h, boards.h); they are not defined in the
repository, so the driver is parameterised by them. -/
structure Sdk where
  TIMER_MODE_MODE_Timer : Nat
  TIMER_INTENSET_COMPARE2_Enabled : Nat
  TIMER_INTENSET_COMPARE2_Pos : Nat
  TIMER_INTENSET_COMPARE2_Msk : Nat
  TIMER_SHORTS_COMPARE1_CLEAR_Enabled : Nat
  TIMER_SHORTS_COMPARE1_CLEAR_Pos : Nat
  BUTTON_0 : Nat
  BUTTON_1 : Nat
  BUTTON_PULL : Nat
  NRF_GPIOTE_POLARITY_TOGGLE : Nat
  NRF_GPIOTE_INITIAL_VALUE_HIGH : Nat
  TIMER2_IRQn : Nat
  /-- Address of NRF_TIMER2->EVENTS_COMPARE[0]. -/
  ADDR_TIMER2_EVENTS_COMPARE0 : Nat
  /-- Address of NRF_TIMER2->EVENTS_COMPARE[1]. -/
  ADDR_TIMER2_EVENTS_COMPARE1 : Nat
  /-- Address of NRF_GPIOTE->TASKS_OUT[0]. -/
  ADDR_GPIOTE_TASKS_OUT0 : Nat
  PPI_CHEN_CH0_Pos : Nat
  PPI_CHEN_CH1_Pos : Nat
deriving DecidableEq, Repr

/-- The values these constants have in the nRF51 headers (buttons as on the
PCA10001 board); used for the concrete instances below. -/
def nrf51 : Sdk where
  TIMER_MODE_MODE_Timer := 0
  TIMER_INTENSET_COMPARE2_Enabled := 1
  TIMER_INTENSET_COMPARE2_Pos := 18
  TIMER_INTENSET_COMPARE2_Msk := 0x40000
  TIMER_SHORTS_COMPARE1_CLEAR_Enabled := 1
  TIMER_SHORTS_COMPARE1_CLEAR_Pos := 1
  BUTTON_0 := 16
  BUTTON_1 := 17
  BUTTON_PULL := 3
  NRF_GPIOTE_POLARITY_TOGGLE := 3
  NRF_GPIOTE_INITIAL_VALUE_HIGH := 1
  TIMER2_IRQn := 10
  ADDR_TIMER2_EVENTS_COMPARE0 := 0x4000A140
  ADDR_TIMER2_EVENTS_COMPARE1 := 0x4000A144
  ADDR_GPIOTE_TASKS_OUT0 := 0x40006000
  PPI_CHEN_CH0_Pos := 0
  PPI_CHEN_CH1_Pos := 1

/-! ## State -/

/-- Registers of NRF_TIMER2 (four compare channels). -/
structure NRF_TIMER_Type where
  TASKS_START : Nat
  EVENTS_COMPARE0 : Nat
  EVENTS_COMPARE1 : Nat
  EVENTS_COMPARE2 : Nat
  EVENTS_COMPARE3 : Nat
  SHORTS : Nat
  INTENSET : Nat
  MODE : Nat
  PRESCALER : Nat
  CC0 : Nat
  CC1 : Nat
  CC2 : Nat
  CC3 : Nat
deriving DecidableEq, Repr

/-- Registers of NRF_GPIO written by the driver. -/
structure NRF_GPIO_Type where
  OUT : Nat
  DIRSET : Nat
  DIRCLR : Nat
deriving DecidableEq, Repr

/-- Registers of NRF_PPI for channels 0 and 1, and the channel enable register. -/
structure NRF_PPI_Type where
  CH0_EEP : Nat
  CH0_TEP : Nat
  CH1_EEP : Nat
  CH1_TEP : Nat
  CHEN : Nat
deriving DecidableEq, Repr

/-- A call into the vendor SDK or the CMSIS core, with its arguments. -/
inductive SdkCall where
  | nrf_gpio_cfg_input (pin_number pull_config : Nat)
  | nrf_gpio_cfg_output (pin_number : Nat)
  | nrf_gpiote_task_config (channel_number pin_number polarity initial_value : Nat)
  | NVIC_EnableIRQ (irqn : Nat)
  | enable_irq
deriving DecidableEq, Repr

/-- Whole state: the static cell pwm, the peripherals, and the log of SDK calls
(most recent last). -/
structure State where
  pwm : Nat
  NRF_TIMER2 : NRF_TIMER_Type
  NRF_GPIO_PORT : NRF_GPIO_Type
  NRF_PPI : NRF_PPI_Type
  calls : List SdkCall
deriving DecidableEq, Repr

/-- Timer block with every register zero. -/
def zeroTimer : NRF_TIMER_Type :=
  ⟨0, 0, 0, 0, 0, 0, 0, 0, 0, 0, 0, 0, 0⟩

/-- State at entry to main: the static initialiser of line 21 has run, pwm is
LED_INTENSITY_LOW; the peripherals hold whatever they hold. -/
def boot (t : NRF_TIMER_Type) (g : NRF_GPIO_Type) (p : NRF_PPI_Type) : State :=
  { pwm := u8 LED_INTENSITY_LOW, NRF_TIMER2 := t, NRF_GPIO_PORT := g, NRF_PPI := p, calls := [] }

/-- Boot state with every modelled register zero. -/
def boot0 : State := boot zeroTimer ⟨0, 0, 0⟩ ⟨0, 0, 0, 0, 0⟩

/-! ## The functions of ble_pwm.c -/

/-- timer2_init, lines 29 to 75 (the oscillator and constant-latency statements
are commented out in the source). -/
def timer2_init (k : Sdk) (s : State) : State :=
  let t := s.NRF_TIMER2
  let t := { t with MODE := u32 k.TIMER_MODE_MODE_Timer }
  let t := { t with PRESCALER := 4 }
  let t := { t with CC0 := LED_INTENSITY_LOW }
  let t := { t with CC1 := u32 (LED_INTENSITY_HALF * 2) }
  let t := { t with CC2 := LED_INTENSITY_HIGH }
  let inten := u32 (k.TIMER_INTENSET_COMPARE2_Enabled <<< k.TIMER_INTENSET_COMPARE2_Pos)
  let t := { t with INTENSET := inten }
  let shorts := u32 (k.TIMER_SHORTS_COMPARE1_CLEAR_Enabled <<< k.TIMER_SHORTS_COMPARE1_CLEAR_Pos)
  let t := { t with SHORTS := shorts }
  let c := s.calls ++ [SdkCall.NVIC_EnableIRQ k.TIMER2_IRQn, SdkCall.enable_irq]
  let t := { t with TASKS_START := 1 }
  { s with NRF_TIMER2 := t, calls := c }

/-- gpiote_init, lines 80 to 100. -/
def gpiote_init (k : Sdk) (pwm_output_pin_number : Nat) (s : State) : State :=
  let pin := u32 pwm_output_pin_number
  let g := s.NRF_GPIO_PORT
  let g := { g with OUT := 0x00000000 }
  let g := { g with DIRSET := 0x0000FF00 }
  let g := { g with DIRCLR := 0x000000FF }
  let c := s.calls ++
    [ SdkCall.nrf_gpio_cfg_input k.BUTTON_0 k.BUTTON_PULL,
      SdkCall.nrf_gpio_cfg_input k.BUTTON_1 k.BUTTON_PULL,
      SdkCall.nrf_gpio_cfg_output pin,
      SdkCall.nrf_gpiote_task_config 0 pin k.NRF_GPIOTE_POLARITY_TOGGLE
        k.NRF_GPIOTE_INITIAL_VALUE_HIGH ]
  { s with NRF_GPIO_PORT := g, calls := c }

/-- ppi_init, lines 105 to 119: every statement of the body is commented out in
the source, so the function writes nothing. -/
def ppi_init (s : State) : State := s

/-- TIMER2_IRQHandler, lines 124 to 142. -/
def TIMER2_IRQHandler (k : Sdk) (s : State) : State :=
  let t := s.NRF_TIMER2
  let t :=
    if t.EVENTS_COMPARE2 = 1 ∧ (t.INTENSET &&& k.TIMER_INTENSET_COMPARE2_Msk) ≠ 0 then
      { t with EVENTS_COMPARE2 := 0 }
    else t
  let t :=
    if s.pwm ≥ LED_INTENSITY_LOW ∧ s.pwm ≤ LED_INTENSITY_HIGH then
      { t with CC0 := s.pwm }
    else
      { t with CC0 := LED_INTENSITY_LOW }
  { s with NRF_TIMER2 := t }

/-- pwm_set, lines 144 to 146.  The parameter is a uint8_t: the value a caller
passes is converted to uint8_t at the call. -/
def pwm_set (new_value : Nat) (s : State) : State :=
  { s with pwm := u8 new_value }

/-- pwm_init, lines 149 to 153.  The parameter is a uint32_t. -/
def pwm_init (k : Sdk) (pwm_output_pin_number : Nat) (s : State) : State :=
  let pin := u32 pwm_output_pin_number
  timer2_init k (ppi_init (gpiote_init k pin s))

/-! ## Runs -/

/-- One event of a run: a call of pwm_set with an argument, or one invocation
of the interrupt handler. -/
inductive Step where
  | set (v : Nat)
  | irq
deriving DecidableEq, Repr

/-- Effect of one event. -/
def step (k : Sdk) : Step → State → State
  | Step.set v, s => pwm_set v s
  | Step.irq, s => TIMER2_IRQHandler k s

/-- Effect of a finite sequence of events, first event first. -/
def run (k : Sdk) (steps : List Step) (s : State) : State :=
  steps.foldl (fun acc e => step k e acc) s

/-- For each request in turn: pwm_set with that request, one handler invocation,
then the value of CC[0] is recorded. -/
def observe (k : Sdk) : List Nat → State → List Nat
  | [], _ => []
  | v :: vs, s =>
    let s1 := TIMER2_IRQHandler k (pwm_set v s)
    s1.NRF_TIMER2.CC0 :: observe k vs s1

/-! ## Properties named by the specification -/

/-- The active threshold lies within the intensity bounds. -/
def thresholdInBounds (s : State) : Prop :=
  LED_INTENSITY_LOW ≤ s.NRF_TIMER2.CC0 ∧ s.NRF_TIMER2.CC0 ≤ LED_INTENSITY_HIGH

instance (s : State) : Decidable (thresholdInBounds s) := by
  unfold thresholdInBounds; infer_instance

/-- Strict ordering of the bounds against the safe update point CC[2] and the
cycle period CC[1]. -/
def configOrdering (t : NRF_TIMER_Type) : Prop :=
  LED_INTENSITY_LOW ≤ LED_INTENSITY_HIGH ∧ LED_INTENSITY_HIGH < t.CC2 ∧ t.CC2 < t.CC1

instance (t : NRF_TIMER_Type) : Decidable (configOrdering t) := by
  unfold configOrdering; infer_instance

/-- Strict boundary ordering including the duty threshold CC[0]. -/
def boundaryOrdering (t : NRF_TIMER_Type) : Prop :=
  LED_INTENSITY_LOW ≤ t.CC0 ∧ t.CC0 ≤ LED_INTENSITY_HIGH ∧
    LED_INTENSITY_HIGH < t.CC2 ∧ t.CC2 < t.CC1

instance (t : NRF_TIMER_Type) : Decidable (boundaryOrdering t) := by
  unfold boundaryOrdering; infer_instance

/-- PPI channels 0 and 1 route the compare events 0 and 1 of Timer 2 to the
GPIOTE output task 0, and both channels are enabled. -/
def ppiRouted (k : Sdk) (p : NRF_PPI_Type) : Prop :=
  p.CH0_EEP = k.ADDR_TIMER2_EVENTS_COMPARE0 ∧ p.CH0_TEP = k.ADDR_GPIOTE_TASKS_OUT0 ∧
    p.CH1_EEP = k.ADDR_TIMER2_EVENTS_COMPARE1 ∧ p.CH1_TEP = k.ADDR_GPIOTE_TASKS_OUT0 ∧
    p.CHEN.testBit k.PPI_CHEN_CH0_Pos = true ∧ p.CHEN.testBit k.PPI_CHEN_CH1_Pos = true

instance (k : Sdk) (p : NRF_PPI_Type) : Decidable (ppiRouted k p) := by
  unfold ppiRouted; infer_instance

/-! ## Basic lemmas -/

theorem pwm_set_timer (v : Nat) (s : State) : (pwm_set v s).NRF_TIMER2 = s.NRF_TIMER2 := rfl

theorem pwm_set_pwm (v : Nat) (s : State) : (pwm_set v s).pwm = v % 256 := rfl

theorem handler_CC0 (k : Sdk) (s : State) :
    (TIMER2_IRQHandler k s).NRF_TIMER2.CC0 =
      if LED_INTENSITY_LOW ≤ s.pwm ∧ s.pwm ≤ LED_INTENSITY_HIGH then s.pwm
      else LED_INTENSITY_LOW := by
  unfold TIMER2_IRQHandler
  by_cases h : LED_INTENSITY_LOW ≤ s.pwm ∧ s.pwm ≤ LED_INTENSITY_HIGH
  · simp [h]
  · simp [h]

theorem handler_pwm (k : Sdk) (s : State) : (TIMER2_IRQHandler k s).pwm = s.pwm := rfl

theorem pwm_init_CC0 (k : Sdk) (pin : Nat) (s : State) :
    (pwm_init k pin s).NRF_TIMER2.CC0 = LED_INTENSITY_LOW := rfl

theorem pwm_init_pwm (k : Sdk) (pin : Nat) (s : State) : (pwm_init k pin s).pwm = s.pwm := rfl

theorem handler_inBounds (k : Sdk) (s : State) : thresholdInBounds (TIMER2_IRQHandler k s) := by
  unfold thresholdInBounds
  rw [handler_CC0]
  by_cases h : LED_INTENSITY_LOW ≤ s.pwm ∧ s.pwm ≤ LED_INTENSITY_HIGH
  · rw [if_pos h]; exact h
  · rw [if_neg h]; decide

theorem step_inBounds (k : Sdk) (e : Step) (s : State) (h : thresholdInBounds s) :
    thresholdInBounds (step k e s) := by
  cases e with
  | set v => exact h
  | irq => exact handler_inBounds k s

theorem run_inBounds (k : Sdk) (steps : List Step) (s : State) (h : thresholdInBounds s) :
    thresholdInBounds (run k steps s) := by
  induction steps generalizing s with
  | nil => exact h
  | cons e es ih => exact ih (step k e s) (step_inBounds k e s h)

theorem run_append (k : Sdk) (xs ys : List Step) (s : State) :
    run k (xs ++ ys) s = run k ys (run k xs s) := by
  simp [run, List.foldl_append]

theorem observe_inRange (k : Sdk) (vs : List Nat) (s : State)
    (h : ∀ v ∈ vs, LED_INTENSITY_LOW ≤ v ∧ v ≤ LED_INTENSITY_HIGH) :
    observe k vs s = vs := by
  induction vs generalizing s with
  | nil => rfl
  | cons v vs ih =>
    have hv := h v (List.mem_cons_self v vs)
    have hlt : v % 256 = v := Nat.mod_eq_of_lt (by
      have := hv.2; simp [LED_INTENSITY_HIGH] at this; omega)
    have hrest : ∀ w ∈ vs, LED_INTENSITY_LOW ≤ w ∧ w ≤ LED_INTENSITY_HIGH :=
      fun w hw => h w (List.mem_cons_of_mem v hw)
    simp only [observe]
    rw [ih _ hrest, handler_CC0, pwm_set_pwm, hlt]
    simp [hv]

theorem iterate_pwm_set (v : Nat) (n : Nat) (s : State) (hn : 1 ≤ n) :
    (pwm_set v)^[n] s = pwm_set v s := by
  induction n generalizing s with
  | zero => omega
  | succ m ih =>
    rcases Nat.eq_zero_or_pos m with h0 | hpos
    · subst h0; rfl
    · rw [Function.iterate_succ_apply, ih (pwm_set v s) hpos]; rfl

/-! ## Claims -/

/-- C1: starting from the state left by pwm_init, for every sequence of requests
that all lie between LED_INTENSITY_LOW (10) and LED_INTENSITY_HIGH (126), running
pwm_set with each request followed by one TIMER2_IRQHandler invocation yields, as
the values of CC[0] observed after the successive handler runs, exactly the
sequence of requests. -/
theorem C1_in_range_requests_applied (k : Sdk) (pin : Nat) (s : State) (vs : List Nat)
    (h : ∀ v ∈ vs, LED_INTENSITY_LOW ≤ v ∧ v ≤ LED_INTENSITY_HIGH) :
    observe k vs (pwm_init k pin s) = vs :=
  observe_inRange k vs (pwm_init k pin s) h

/-- Witness for C1: the requests 10, 126, 10 after pwm_init on pin 21 from the
zeroed boot state give the thresholds 10, 126, 10. -/
theorem C1_in_range_requests_applied_witness :
    (LED_INTENSITY_LOW ≤ 10 ∧ 10 ≤ LED_INTENSITY_HIGH) ∧
      (LED_INTENSITY_LOW ≤ 126 ∧ 126 ≤ LED_INTENSITY_HIGH) ∧
      observe nrf51 [10, 126, 10] (pwm_init nrf51 21 boot0) = [10, 126, 10] :=
  ⟨by decide, by decide,
    C1_in_range_requests_applied nrf51 21 boot0 [10, 126, 10] (by decide)⟩

/-- C2: for every uint8_t value v (at most 255) below LED_INTENSITY_LOW or above
LED_INTENSITY_HIGH and every prior state, after pwm_set v and one handler
invocation CC[0] equals LED_INTENSITY_LOW; it is neither v nor
LED_INTENSITY_HIGH. -/
theorem C2_out_of_range_fails_safe_to_low (k : Sdk) (v : Nat) (s : State) (hv : v ≤ 255)
    (hout : v < LED_INTENSITY_LOW ∨ LED_INTENSITY_HIGH < v) :
    (TIMER2_IRQHandler k (pwm_set v s)).NRF_TIMER2.CC0 = LED_INTENSITY_LOW ∧
      (TIMER2_IRQHandler k (pwm_set v s)).NRF_TIMER2.CC0 ≠ v ∧
      (TIMER2_IRQHandler k (pwm_set v s)).NRF_TIMER2.CC0 ≠ LED_INTENSITY_HIGH := by
  have hmod : v % 256 = v := Nat.mod_eq_of_lt (by omega)
  have hnot : ¬ (LED_INTENSITY_LOW ≤ v ∧ v ≤ LED_INTENSITY_HIGH) := by
    rcases hout with h | h <;> omega
  have hcc : (TIMER2_IRQHandler k (pwm_set v s)).NRF_TIMER2.CC0 = LED_INTENSITY_LOW := by
    rw [handler_CC0, pwm_set_pwm, hmod, if_neg hnot]
  refine ⟨hcc, ?_, ?_⟩
  · rw [hcc]
    intro h
    apply hnot
    rw [← h]
    decide
  · rw [hcc]; decide

/-- Witness for C2: the over-range request 200 on the zeroed boot state. -/
theorem C2_out_of_range_fails_safe_to_low_witness :
    (200 ≤ 255 ∧ (200 < LED_INTENSITY_LOW ∨ LED_INTENSITY_HIGH < 200)) ∧
      (TIMER2_IRQHandler nrf51 (pwm_set 200 boot0)).NRF_TIMER2.CC0 = LED_INTENSITY_LOW ∧
      (TIMER2_IRQHandler nrf51 (pwm_set 200 boot0)).NRF_TIMER2.CC0 ≠ 200 ∧
      (TIMER2_IRQHandler nrf51 (pwm_set 200 boot0)).NRF_TIMER2.CC0 ≠ LED_INTENSITY_HIGH :=
  ⟨by decide, C2_out_of_range_fails_safe_to_low nrf51 200 boot0 (by decide) (by decide)⟩

/-- C3: in every state reached from the state produced by pwm_init through any
finite interleaving of pwm_set calls (any argument) and handler invocations,
CC[0] lies between LED_INTENSITY_LOW (10) and LED_INTENSITY_HIGH (126). -/
theorem C3_active_threshold_always_in_bounds (k : Sdk) (pin : Nat) (s : State)
    (steps : List Step) :
    LED_INTENSITY_LOW ≤ (run k steps (pwm_init k pin s)).NRF_TIMER2.CC0 ∧
      (run k steps (pwm_init k pin s)).NRF_TIMER2.CC0 ≤ LED_INTENSITY_HIGH ∧
      LED_INTENSITY_LOW = 10 ∧ LED_INTENSITY_HIGH = 126 := by
  have h0 : thresholdInBounds (pwm_init k pin s) := by
    unfold thresholdInBounds
    rw [pwm_init_CC0]
    decide
  have h := run_inBounds k steps (pwm_init k pin s) h0
  exact ⟨h.1, h.2, rfl, rfl⟩

/-- C4: pwm_set leaves the whole timer block (CC[0], CC[1], CC[2], SHORTS,
INTENSET, EVENTS_COMPARE and the rest), the GPIO block, the PPI block and the
call log unchanged and writes only the cell pwm; hence in any run after
pwm_init a pwm_set step never changes CC[0]. -/
theorem C4_pwm_set_frame (k : Sdk) (pin v : Nat) (s s0 : State) (pre : List Step) :
    (pwm_set v s).NRF_TIMER2 = s.NRF_TIMER2 ∧
      (pwm_set v s).NRF_GPIO_PORT = s.NRF_GPIO_PORT ∧
      (pwm_set v s).NRF_PPI = s.NRF_PPI ∧
      (pwm_set v s).calls = s.calls ∧
      (run k (pre ++ [Step.set v]) (pwm_init k pin s0)).NRF_TIMER2.CC0 =
        (run k pre (pwm_init k pin s0)).NRF_TIMER2.CC0 := by
  refine ⟨rfl, rfl, rfl, rfl, ?_⟩
  rw [run_append]
  rfl

/-- C6 (evaluation of the code): pwm_init leaves every PPI register as it found
it, and after pwm_init on pin 21 from the zeroed boot state channels 0 and 1
are neither configured nor enabled, while the GPIOTE toggle task for the pin has
been requested. -/
theorem C6_pwm_init_writes_no_ppi_register :
    (∀ (k : Sdk) (pin : Nat) (s : State), (pwm_init k pin s).NRF_PPI = s.NRF_PPI) ∧
      ¬ ppiRouted nrf51 (pwm_init nrf51 21 boot0).NRF_PPI ∧
      (pwm_init nrf51 21 boot0).NRF_PPI.CHEN = 0 ∧
      SdkCall.nrf_gpiote_task_config 0 21 nrf51.NRF_GPIOTE_POLARITY_TOGGLE
        nrf51.NRF_GPIOTE_INITIAL_VALUE_HIGH ∈ (pwm_init nrf51 21 boot0).calls := by
  refine ⟨fun _ _ _ => rfl, by decide, rfl, by decide⟩

/-- C7 (as stated, refuted): the value 256 passed to pwm_set is not stored; the
cell pwm holds 0 afterwards. -/
theorem C7_value_256_is_truncated :
    (pwm_set 256 boot0).pwm = 0 ∧ (pwm_set 256 boot0).pwm ≠ 256 := by
  decide

/-- C7 (amended): pwm_set stores its argument reduced modulo 256 in the cell pwm;
for every value v of the parameter type uint8_t (v below 256) the cell holds v
exactly afterwards, with no clamping or range validation. -/
theorem C7_pwm_set_stores_uint8_verbatim (v : Nat) (s : State) (hv : v < 256) :
    (pwm_set v s).pwm = v ∧ ∀ w : Nat, (pwm_set w s).pwm = w % 256 := by
  refine ⟨?_, fun w => rfl⟩
  rw [pwm_set_pwm]
  exact Nat.mod_eq_of_lt hv

/-- Witness for C7 (amended): the out-of-range but representable value 255. -/
theorem C7_pwm_set_stores_uint8_verbatim_witness :
    255 < 256 ∧ (pwm_set 255 boot0).pwm = 255 :=
  ⟨by decide, (C7_pwm_set_stores_uint8_verbatim 255 boot0 (by decide)).1⟩

/-- C8: in the state right after pwm_init, run on the boot state (static
initialiser done, any register contents) with any pin, CC[0] equals
LED_INTENSITY_LOW (10) and the cell pwm equals LED_INTENSITY_LOW; the first
handler run leaves CC[0] at LED_INTENSITY_LOW. -/
theorem C8_startup_threshold_is_low (k : Sdk) (pin : Nat) (t : NRF_TIMER_Type)
    (g : NRF_GPIO_Type) (p : NRF_PPI_Type) :
    (pwm_init k pin (boot t g p)).NRF_TIMER2.CC0 = LED_INTENSITY_LOW ∧
      (pwm_init k pin (boot t g p)).pwm = LED_INTENSITY_LOW ∧
      (TIMER2_IRQHandler k (pwm_init k pin (boot t g p))).NRF_TIMER2.CC0 = LED_INTENSITY_LOW ∧
      LED_INTENSITY_LOW = 10 := by
  refine ⟨rfl, rfl, ?_, rfl⟩
  rw [handler_CC0]
  have hp : (pwm_init k pin (boot t g p)).pwm = 10 := rfl
  rw [hp]
  decide

/-- C9: pwm_set is an overwrite: pwm_set b after pwm_set a gives the same state
as pwm_set b alone, and n >= 1 calls of pwm_set v give the same state, and the
same CC[0] after the next handler run, as one call. -/
theorem C9_pwm_set_overwrite_idempotent (k : Sdk) (s : State) (a b v n : Nat) (hn : 1 ≤ n) :
    pwm_set b (pwm_set a s) = pwm_set b s ∧
      (pwm_set v)^[n] s = pwm_set v s ∧
      (TIMER2_IRQHandler k ((pwm_set v)^[n] s)).NRF_TIMER2.CC0 =
        (TIMER2_IRQHandler k (pwm_set v s)).NRF_TIMER2.CC0 := by
  refine ⟨rfl, iterate_pwm_set v n s hn, ?_⟩
  rw [iterate_pwm_set v n s hn]

/-- Witness for C9: requests 20 then 50, and 77 three times, on the zeroed boot
state. -/
theorem C9_pwm_set_overwrite_idempotent_witness :
    1 ≤ 3 ∧ pwm_set 50 (pwm_set 20 boot0) = pwm_set 50 boot0 ∧
      (pwm_set 77)^[3] boot0 = pwm_set 77 boot0 ∧
      (TIMER2_IRQHandler nrf51 ((pwm_set 77)^[3] boot0)).NRF_TIMER2.CC0 =
        (TIMER2_IRQHandler nrf51 (pwm_set 77 boot0)).NRF_TIMER2.CC0 :=
  ⟨by decide, C9_pwm_set_overwrite_idempotent nrf51 boot0 20 50 77 3 (by decide)⟩

/-- C10 (as stated, refuted): after pwm_init on pin 21 from the zeroed boot state
the counter has been started although the configured ordering does not hold. -/
theorem C10_started_despite_violated_ordering :
    ¬ ((pwm_init nrf51 21 boot0).NRF_TIMER2.TASKS_START = 1 →
        configOrdering (pwm_init nrf51 21 boot0).NRF_TIMER2) := by
  decide

/-- C10 (amended): pwm_init validates nothing: for every pin and prior state it
sets TASKS_START to 1, and it does so while the strict ordering of the
configured thresholds does not hold. -/
theorem C10_pwm_init_always_starts (k : Sdk) (pin : Nat) (s : State) :
    (pwm_init k pin s).NRF_TIMER2.TASKS_START = 1 ∧
      ¬ configOrdering (pwm_init k pin s).NRF_TIMER2 := by
  refine ⟨rfl, ?_⟩
  unfold configOrdering
  have h1 : (pwm_init k pin s).NRF_TIMER2.CC1 = 126 := rfl
  have h2 : (pwm_init k pin s).NRF_TIMER2.CC2 = 126 := rfl
  rw [h1, h2]
  decide

end BlePwm
